import Mathlib

/-!
Verification of the creative-cloner pipeline tools.

Shallow embedding of the Python sources under `tools/`:
`generate_images.py`, `generate_videos.py`, `combine_all.py`,
`create_prompts.py`.  Python strings are modelled as `List Char`
(one element per code point), Python integers as `Nat`/`Int`, and
external side effects (HTTP requests, Airtable reads/writes, subprocess
invocations) as explicit oracle functions plus event traces.
-/

namespace CreativeCloner

/-! ### Python string primitives -/

/-- Whitespace class used by Python's `str.strip()` (modelled with
`Char.isWhitespace`, which covers the ASCII whitespace that occurs in
the prompts this pipeline builds). -/
def pyIsSpace (c : Char) : Bool := c.isWhitespace

/-- Python `s.strip()`: drop whitespace from both ends. -/
def pyStrip (s : List Char) : List Char :=
  ((s.dropWhile pyIsSpace).reverse.dropWhile pyIsSpace).reverse

/-- Python `s.lower()`, per code point. -/
def pyLower (s : List Char) : List Char := s.map Char.toLower

/-- Python `s.split(sep)` for a one-character separator: splits at every
occurrence of `sep`, keeping empty pieces (`''.split('.') == ['']`). -/
def pySplit (sep : Char) : List Char → List (List Char)
  | [] => [[]]
  | c :: cs =>
    let r := pySplit sep cs
    if c = sep then [] :: r
    else
      match r with
      | [] => [[c]]
      | h :: t => (c :: h) :: t

/-- Python slice `s[:k]` for a possibly negative `k`: a non-negative
`k` keeps the first `k` characters, a negative `k` drops the last `-k`
characters. -/
def pySliceTo (s : List Char) (k : Int) : List Char :=
  if 0 ≤ k then s.take k.toNat
  else s.take (s.length - (-k).toNat)

/-! ### `truncate_prompt` (identical in `generate_images.py` lines 124-144
and `generate_videos.py` lines 131-151) -/

/-- The sentence-accumulation loop of `truncate_prompt`: append
`sentence + "."` while the accumulated length stays within
`max_length - 50`, stopping at the first sentence that does not fit.
The bound is computed in `Int` because Python's `max_length - 50`
may be negative. -/
def accumSentences (maxLen : Nat) : List (List Char) → List Char → List Char
  | [], acc => acc
  | s :: rest, acc =>
    if (acc.length : Int) + (s.length : Int) + 1 ≤ (maxLen : Int) - 50 then
      accumSentences maxLen rest (acc ++ s ++ ['.'])
    else acc

/-- `truncate_prompt(prompt, max_length)` from the two generator tools. -/
def truncate_prompt (prompt : List Char) (max_length : Nat) : List Char :=
  if prompt.length ≤ max_length then prompt
  else
    let truncated := accumSentences max_length (pySplit '.' prompt) []
    let truncated :=
      if truncated.isEmpty || truncated.length < 50 then
        pySliceTo prompt ((max_length : Int) - 3) ++ ['.', '.', '.']
      else truncated
    pyStrip truncated

/-- Prompt-length limits of the configured models (`MODELS` tables:
`z-image` 1000, `nano-banana-pro` 10000 in `generate_images.py`,
`sora-2` 10000 in `generate_videos.py`). -/
def modelPromptLimits : List Nat := [1000, 10000]

/-! ### Airtable scene records -/

/-- One row of the `Scenes` table, with the fields the tools touch.
`none` models an absent field; an attachment field is the list of its
attachment URLs (Python truthiness of the field is "present and
non-empty list"). -/
structure AirRecord where
  id : String
  scene : Option String
  start_image_prompt : Option String
  video_prompt : Option String
  start_image : Option (List String)
  scene_video : Option (List String)
  deriving Repr, DecidableEq

/-- Python truthiness of an attachment field:
`'f' in fields and fields['f']`. -/
def attPresent : Option (List String) → Bool
  | none => false
  | some l => !l.isEmpty

/-- The filter applied by `get_scenes_from_airtable` in
`generate_videos.py` (lines 100-108): keep a record iff it has a truthy
`start_image` and no truthy `scene_video`. -/
def eligibleForVideoB (r : AirRecord) : Bool :=
  attPresent r.start_image && !attPresent r.scene_video

/-- `get_scenes_from_airtable` after the per-project fetch: the list of
records that have `start_image` but no `scene_video`, in store order. -/
def get_scenes_filter (records : List AirRecord) : List AirRecord :=
  records.filter eligibleForVideoB

/-- Spec-side predicate: the record has a non-empty image reference. -/
def HasImageRef (r : AirRecord) : Prop :=
  ∃ l, r.start_image = some l ∧ l ≠ []

/-- Spec-side predicate: the record has a non-empty video reference. -/
def HasVideoRef (r : AirRecord) : Prop :=
  ∃ l, r.scene_video = some l ∧ l ≠ []

/-! ### External-interaction events

Each constructor is one episode of interaction with the outside world;
`kiePoll` stands for the whole polling phase of one job (one or more
HTTP polls of the same task). -/

inductive Event where
  | storeRead
  | storeWrite
  | kieUpload
  | kieSubmit
  | kiePoll
  | httpDownload
  | ffmpegVersion
  | ffmpegMux
  | fileWrite
  | planEntry
  deriving Repr, DecidableEq

/-- Events that are calls to a remote service (the Airtable record
store, the Kie.ai generation API, or a result-URL download), as opposed
to local subprocess runs, local file writes and console output. -/
def Event.isRemote : Event → Bool
  | .storeRead => true
  | .storeWrite => true
  | .kieUpload => true
  | .kieSubmit => true
  | .kiePoll => true
  | .httpDownload => true
  | _ => false

/-- Result of the submit-and-poll phase for one scene, as observed by
the batch loops (`create_*_task` + `poll_task_status`): the task
creation can raise (rejected request or network error), the poll can
raise (remote-reported failure or timeout), or the poll returns a list
of result URLs. -/
inductive GenOutcome where
  | submitRejected
  | transportError
  | pollRemoteFail
  | pollTimeout
  | ok (urls : List String)
  deriving Repr, DecidableEq

/-- Remote-call events of one scene's submit-and-poll phase. -/
def genEvents : GenOutcome → List Event
  | .submitRejected => [.kieSubmit]
  | .transportError => [.kieSubmit]
  | .pollRemoteFail => [.kieSubmit, .kiePoll]
  | .pollTimeout => [.kieSubmit, .kiePoll]
  | .ok _ => [.kieSubmit, .kiePoll]

/-- Mutable state of a generation batch run: the counters `successful`
and `failed` of the two `main` loops, the accumulated `actual_cost` of
`generate_videos.py`, the number of loop iterations entered
(`attempted`, one per "Scene i/N" header), and the trace of external
interactions. -/
structure BatchSummary where
  attempted : Nat := 0
  successful : Nat := 0
  failed : Nat := 0
  cost : ℚ := 0
  events : List Event := []
  deriving Repr, DecidableEq

/-- Per-scene oracle for the image batch loop: outcome of the
generation job and of the Airtable update. -/
structure ImagesSceneEnv where
  gen : GenOutcome
  updateOk : Bool
  deriving Repr, DecidableEq

/-- One iteration of the scene loop of `generate_images.py` `main`
(lines 535-585): an empty `start_image_prompt` counts as failed; any
exception from task creation, polling or the Airtable update counts as
failed; otherwise the scene counts as successful. -/
def imagesStep (s : BatchSummary) (re : AirRecord × ImagesSceneEnv) :
    BatchSummary :=
  let r := re.1
  let e := re.2
  let s := { s with attempted := s.attempted + 1 }
  if r.start_image_prompt.getD "" = "" then
    { s with failed := s.failed + 1 }
  else
    let s := { s with events := s.events ++ genEvents e.gen }
    match e.gen with
    | .ok urls =>
      if !urls.isEmpty then
        let s := { s with events := s.events ++ [Event.storeWrite] }
        if e.updateOk then { s with successful := s.successful + 1 }
        else { s with failed := s.failed + 1 }
      else { s with failed := s.failed + 1 }
    | _ => { s with failed := s.failed + 1 }

/-- The scene loop of `generate_images.py` `main`, over the scene
records paired with their per-scene oracles. -/
def imagesBatch (l : List (AirRecord × ImagesSceneEnv)) : BatchSummary :=
  l.foldl imagesStep {}

/-- The "Actual cost" line of the image summary (line 593):
`successful * model_config['cost']`. -/
def imagesRealizedCost (unitCost : ℚ) (s : BatchSummary) : ℚ :=
  (s.successful : ℚ) * unitCost

/-- Per-scene oracle for the video batch loop. -/
structure VideosSceneEnv where
  gen : GenOutcome
  updateOk : Bool
  downloadOk : Bool
  deriving Repr, DecidableEq

/-- One iteration of the scene loop of `generate_videos.py` `main`
(lines 503-570): a record whose `start_image` cannot be read counts as
failed; a record with an empty `video_prompt` is skipped without
touching either counter; otherwise any exception from task creation,
polling, the Airtable update or the local download counts as failed,
and a fully successful scene adds the model's unit cost to
`actual_cost`. -/
def videosStep (unitCost : ℚ) (skipDownload : Bool) (s : BatchSummary)
    (re : AirRecord × VideosSceneEnv) : BatchSummary :=
  let r := re.1
  let e := re.2
  let s := { s with attempted := s.attempted + 1 }
  if !attPresent r.start_image then
    { s with failed := s.failed + 1 }
  else if r.video_prompt.getD "" = "" then s
  else
    let s := { s with events := s.events ++ genEvents e.gen }
    match e.gen with
    | .ok urls =>
      if urls.isEmpty then { s with failed := s.failed + 1 }
      else
        let s := { s with events := s.events ++ [Event.storeWrite] }
        if e.updateOk then
          if skipDownload then
            { s with successful := s.successful + 1, cost := s.cost + unitCost }
          else
            let s := { s with events := s.events ++ [Event.httpDownload] }
            if e.downloadOk then
              { s with successful := s.successful + 1, cost := s.cost + unitCost }
            else { s with failed := s.failed + 1 }
        else { s with failed := s.failed + 1 }
    | _ => { s with failed := s.failed + 1 }

/-- The scene loop of `generate_videos.py` `main`. -/
def videosBatch (unitCost : ℚ) (skipDownload : Bool)
    (l : List (AirRecord × VideosSceneEnv)) : BatchSummary :=
  l.foldl (videosStep unitCost skipDownload) {}

/-- A scene the video loop skips: its image field is readable but its
`video_prompt` is absent or empty (lines 515-517). -/
def videoSkipped (r : AirRecord) : Bool :=
  attPresent r.start_image && r.video_prompt.getD "" = ""

/-! ### Polling loops (`poll_task_status`) -/

/-- One poll observation: either the HTTP request failed (non-200
status, network error, or JSON decode error — all of which sleep 5 s
and continue), or the remote returned a task state with its payload. -/
inductive PollResp where
  | transport
  | state (s : String) (resultUrls : List String) (failCode failMsg : String)
  deriving Repr, DecidableEq

/-- Terminal result of a polling loop. -/
inductive PollOutcome where
  | success (urls : List String)
  | emptyResult
  | failed (code msg : String)
  | timeout (elapsed : Nat)
  deriving Repr, DecidableEq

/-- Tiered poll cadence of `generate_images.py` (lines 296-303). -/
def imageSleepInterval (elapsed : Nat) : Nat :=
  if elapsed < 30 then 3 else if elapsed < 120 then 5 else 10

/-- Tiered poll cadence of `generate_videos.py` (lines 295-301). -/
def videoSleepInterval (elapsed : Nat) : Nat :=
  if elapsed < 60 then 10 else if elapsed < 180 then 15 else 30

/-- `poll_task_status` of `generate_images.py` (lines 242-312), with
time discretised to whole seconds and the HTTP request itself counted
as instantaneous: `trace n` is the `n`-th poll observation, `e` the
elapsed seconds.  A `success` state with no `resultUrls` raises inside
the loop (`emptyResult`); states outside the five documented ones sleep
5 s; leaving the `while` guard raises `TimeoutError`. -/
def imagePollLoop (trace : Nat → PollResp) (maxWait : Nat) (n e : Nat) :
    PollOutcome :=
  if h : e < maxWait then
    match trace n with
    | .transport => imagePollLoop trace maxWait (n + 1) (e + 5)
    | .state st urls fc fm =>
      if st = "success" then
        if urls.isEmpty then .emptyResult else .success urls
      else if st = "fail" then .failed fc fm
      else if st = "waiting" ∨ st = "queuing" ∨ st = "generating" then
        imagePollLoop trace maxWait (n + 1) (e + imageSleepInterval e)
      else imagePollLoop trace maxWait (n + 1) (e + 5)
  else .timeout e
termination_by maxWait - e
decreasing_by
  all_goals (first | omega | (simp only [imageSleepInterval]; split_ifs <;> omega))

/-- `poll_task_status` of `generate_videos.py` (lines 237-312): same
shape, but every non-terminal state uses the tiered cadence and a
`success` state returns its URL list unchecked. -/
def videoPollLoop (trace : Nat → PollResp) (maxWait : Nat) (n e : Nat) :
    PollOutcome :=
  if h : e < maxWait then
    match trace n with
    | .transport => videoPollLoop trace maxWait (n + 1) (e + 5)
    | .state st urls fc fm =>
      if st = "success" then .success urls
      else if st = "fail" then .failed fc fm
      else videoPollLoop trace maxWait (n + 1) (e + videoSleepInterval e)
  else .timeout e
termination_by maxWait - e
decreasing_by
  all_goals (first | omega | (simp only [videoSleepInterval]; split_ifs <;> omega))

/-- A poll observation whose remote status is still pending: a state
that is neither `success` nor `fail`. -/
def PollResp.isPendingState : PollResp → Prop
  | .transport => False
  | .state st _ _ _ => st ≠ "success" ∧ st ≠ "fail"

/-! ### Scene-number filename ordering (`combine_all.py` lines 73-82) -/

/-- A character matched by the regex class `[_\s]`. -/
def isSepChar (c : Char) : Bool := c = '_' || c.isWhitespace

/-- Numeric value of a digit run (`int(match.group(1))`). -/
def natOfDigits (ds : List Char) : Nat :=
  ds.foldl (fun n c => n * 10 + (c.toNat - 48)) 0

/-- Try to match `scene[_\s]*(\d+)` (case-insensitive) at the head of
the list: the literal `scene`, then separators, then at least one
digit; returns the numeric value of the digit run. -/
def matchSceneAt (cs : List Char) : Option Nat :=
  if (cs.take 5).map Char.toLower = ['s', 'c', 'e', 'n', 'e'] then
    let rest := (cs.drop 5).dropWhile isSepChar
    let ds := rest.takeWhile Char.isDigit
    if ds.isEmpty then none else some (natOfDigits ds)
  else none

/-- `re.search(r'scene[_\s]*(\d+)', name, re.IGNORECASE)`: the leftmost
position where the pattern matches. -/
def searchSceneNum : List Char → Option Nat
  | [] => none
  | c :: cs =>
    match matchSceneAt (c :: cs) with
    | some n => some n
    | none => searchSceneNum cs

/-- A Python sort key produced by `get_scene_number`: an `int` when the
filename contains a scene number, otherwise the filename `str` itself
(the code comment says "use filename alphabetically"). -/
inductive SortKey where
  | num (n : Nat)
  | str (s : List Char)
  deriving Repr, DecidableEq

/-- `get_scene_number(filename)` from `find_video_files`. -/
def get_scene_number (name : List Char) : SortKey :=
  match searchSceneNum name with
  | some n => .num n
  | none => .str name

/-- Python string `<`: lexicographic comparison by code point. -/
def pyStrLt : List Char → List Char → Bool
  | _, [] => false
  | [], _ :: _ => true
  | a :: as, b :: bs =>
    if a.toNat < b.toNat then true
    else if b.toNat < a.toNat then false
    else pyStrLt as bs

/-- Python `<` on sort keys: `int < int` and `str < str` are defined;
comparing an `int` key with a `str` key raises `TypeError`. -/
def pyKeyLt : SortKey → SortKey → Except Unit Bool
  | .num a, .num b => .ok (decide (a < b))
  | .str a, .str b => .ok (pyStrLt a b)
  | _, _ => .error ()

/-- Insert one filename into an already key-sorted list, comparing
scene-number keys with Python `<`; propagates `TypeError`.  A stable
comparison sort is modelled by stable insertion: the new (later)
element goes after key-equal earlier elements, exactly the order
Python's stable `list.sort(key=get_scene_number)` produces. -/
def pyInsertByKey (x : List Char) :
    List (List Char) → Except Unit (List (List Char))
  | [] => .ok [x]
  | y :: ys =>
    match pyKeyLt (get_scene_number x) (get_scene_number y) with
    | .error e => .error e
    | .ok true => .ok (x :: y :: ys)
    | .ok false =>
      match pyInsertByKey x ys with
      | .error e => .error e
      | .ok r => .ok (y :: r)

/-- `video_files.sort(key=get_scene_number)`: stable sort of the
filename list by scene-number key, or `TypeError` when an `int` key
meets a `str` key. -/
def sortVideoFiles : List (List Char) → Except Unit (List (List Char))
  | [] => .ok []
  | x :: xs =>
    match sortVideoFiles xs with
    | .error e => .error e
    | .ok r => pyInsertByKey x r

/-- Numeric key of a filename, for stating sortedness (0 for a
filename without a scene number). -/
def numKey (name : List Char) : Nat :=
  match get_scene_number name with
  | .num n => n
  | .str _ => 0

/-- The filename's sort key is an `int` (a scene number was parsed). -/
def numKeyed (n : List Char) : Bool :=
  match get_scene_number n with
  | .num _ => true
  | .str _ => false

/-! ### `create_prompts` (`create_prompts.py` lines 114-163) -/

/-- One scene of the analysis artifact, fields as strings (`duration`
as its decimal rendering). -/
structure Scene where
  scene_number : Nat
  description : List Char
  environment : List Char
  action : List Char
  lighting : List Char
  camera : List Char
  duration : List Char
  deriving Repr, DecidableEq

/-- One emitted prompt pair. -/
structure PromptPair where
  scene_number : Nat
  scene_description : List Char
  duration : List Char
  image_prompt : List Char
  video_prompt : List Char
  deriving Repr, DecidableEq

/-- The image-prompt f-string (lines 126-135), before `.strip()`. -/
def imagePromptRaw (subject : List Char) (sc : Scene) : List Char :=
  subject ++ "\n\nSetting: ".toList ++ sc.environment
    ++ "\nLighting: ".toList ++ sc.lighting
    ++ "\nCamera: ".toList ++ sc.camera
    ++ "\n\nThe subject is in this position/pose: ".toList
    ++ (pySplit '.' sc.action).headI ++ ".".toList
    ++ "\n\nStyle: Photorealistic, high quality, professional photography\nDetails: Sharp focus, natural colors, ".toList
    ++ pyLower sc.lighting

/-- The video-prompt f-string (lines 140-150), before `.strip()`. -/
def videoPromptRaw (subject : List Char) (sc : Scene) : List Char :=
  "Camera Type: ".toList ++ sc.camera
    ++ "\n\nMain Movement: ".toList ++ subject ++ " ".toList ++ sc.action
    ++ "\n\nSetting: ".toList ++ sc.environment
    ++ "\nLighting: ".toList ++ sc.lighting
    ++ "\n\nMotion details: ".toList ++ sc.action
    ++ "\nDuration: ".toList ++ sc.duration ++ " seconds".toList
    ++ "\n\nStyle: Smooth, natural motion, high quality video, realistic physics".toList

/-- The prompt dictionary appended for one scene (lines 154-160). -/
def mkPromptPair (subject : List Char) (sc : Scene) : PromptPair :=
  { scene_number := sc.scene_number
    scene_description := sc.description
    duration := sc.duration
    image_prompt := pyStrip (imagePromptRaw subject sc)
    video_prompt := pyStrip (videoPromptRaw subject sc) }

/-- `create_prompts(analysis, subject_description)`: one prompt pair
per scene, in the order of the analysis `scenes` list. -/
def create_prompts (scenes : List Scene) (subject : List Char) :
    List PromptPair :=
  scenes.map (mkPromptPair subject)

/-! ### Stage entry points (`main` of each tool), as event traces -/

/-- How a stage run ends: a `sys.exit`/normal return with its process
exit code, or an uncaught `TypeError` from the mixed-key sort. -/
inductive RunOutcome where
  | exit (code : Nat)
  | typeErrorCrash
  deriving Repr, DecidableEq

/-- `startsWith pat l`: `pat` is an initial segment of `l`. -/
def startsWith : List Char → List Char → Bool
  | [], _ => true
  | _ :: _, [] => false
  | a :: as, b :: bs => a = b && startsWith as bs

/-- Python `pat in text` on strings: `pat` occurs contiguously in
`text`. -/
def containsSub (pat : List Char) : List Char → Bool
  | [] => startsWith pat []
  | c :: cs => startsWith pat (c :: cs) || containsSub pat cs

/-- CLI flags of `generate_images.py` that this model distinguishes. -/
structure ImagesArgs where
  dryRun : Bool
  skipApproval : Bool
  testMode : Bool
  deriving Repr, DecidableEq

/-- External world of one `generate_images.py` run. -/
structure ImagesEnv where
  /-- `table.all` result for the project (non-test mode). -/
  records : List AirRecord
  /-- `table.all` result for `TEST-<project>` (test mode). -/
  testRecords : List AirRecord
  /-- Record returned by `table.create` when no test record exists. -/
  createdTest : AirRecord
  /-- Interactive cost approval answer (`yes`/`y` ↦ `true`). -/
  approve : Bool
  /-- A reference image path is available (flag or auto-detected). -/
  refAvailable : Bool
  /-- Per-scene oracles for the generation loop. -/
  sceneEnv : List ImagesSceneEnv
  deriving Repr, DecidableEq

/-- `main` of `generate_images.py` (lines 354-598), from the point
where configuration is loaded, as the trace of external interactions
plus the run outcome. -/
def imagesMain (args : ImagesArgs) (env : ImagesEnv) :
    List Event × RunOutcome :=
  -- scene selection (lines 427-465): test mode reads (and possibly
  -- creates) a TEST record; normal mode reads the project's records
  -- and exits when there are none
  let fetch :
      Option ((List AirRecord) × List Event) :=
    if args.testMode then
      if !env.testRecords.isEmpty then
        some (env.testRecords, [Event.storeRead])
      else some ([env.createdTest], [Event.storeRead, Event.storeWrite])
    else
      if env.records.isEmpty then none
      else some (env.records, [Event.storeRead])
  match fetch with
  | none => ([Event.storeRead], .exit 1)
  | some (scenes, ev) =>
    -- cost estimate printed (local), then interactive approval
    if !args.dryRun && !args.skipApproval && !env.approve then
      (ev, .exit 0)
    else if args.dryRun then
      -- dry-run branch (lines 498-513): one plan entry per scene,
      -- then return
      (ev ++ List.replicate scenes.length Event.planEntry, .exit 0)
    else
      -- reference upload (lines 516-526): attempted when a reference
      -- path is available outside test mode; failure merely continues
      let ev :=
        ev ++ (if env.refAvailable && !args.testMode then [Event.kieUpload] else [])
      let summary := imagesBatch (scenes.zip env.sceneEnv)
      (ev ++ summary.events, .exit 0)

/-- CLI flags of `generate_videos.py` that this model distinguishes. -/
structure VideosArgs where
  dryRun : Bool
  skipApproval : Bool
  testMode : Bool
  skipDownload : Bool
  deriving Repr, DecidableEq

/-- External world of one `generate_videos.py` run. -/
structure VideosEnv where
  /-- `table.all` result for the project, before the eligibility
  filter. -/
  records : List AirRecord
  /-- Interactive cost approval answer. -/
  approve : Bool
  /-- Per-scene oracles for the generation loop. -/
  sceneEnv : List VideosSceneEnv
  deriving Repr, DecidableEq

/-- Cost per video of the `sora-2` model (`MODELS` in
`generate_videos.py`): `$0.50`. -/
def soraCost : ℚ := 1 / 2

/-- `main` of `generate_videos.py` (lines 369-584), from the point
where configuration is loaded. -/
def videosMain (args : VideosArgs) (env : VideosEnv) :
    List Event × RunOutcome :=
  -- test mode exits before touching anything remote (lines 440-445)
  if args.testMode then ([], .exit 1)
  else
    let scenes := get_scenes_filter env.records
    let ev := [Event.storeRead]
    if scenes.isEmpty then (ev, .exit 1)
    else if !args.dryRun && !args.skipApproval && !env.approve then
      (ev, .exit 0)
    else if args.dryRun then
      -- dry-run branch (lines 473-490): one plan entry per scene
      (ev ++ List.replicate scenes.length Event.planEntry, .exit 0)
    else
      let summary := videosBatch soraCost args.skipDownload
        (scenes.zip env.sceneEnv)
      (ev ++ summary.events, .exit 0)

/-- CLI flags of `combine_all.py` that this model distinguishes. -/
structure CombineArgs where
  dryRun : Bool
  reEncode : Bool
  projectName : Option (List Char)
  music : Bool
  deriving Repr, DecidableEq

/-- External world of one `combine_all.py` run. -/
structure CombineEnv where
  /-- `ffmpeg -version` succeeds. -/
  ffmpegInstalled : Bool
  /-- `glob('*.mp4')` result in the input directory. -/
  mp4Files : List (List Char)
  /-- The concatenation `ffmpeg` run succeeds. -/
  muxOk : Bool
  /-- The background-music `ffmpeg` run succeeds. -/
  musicOk : Bool
  deriving Repr, DecidableEq

/-- `find_video_files` (lines 51-89): the `.mp4` files of the input
directory, filtered by case-insensitive project-name substring when a
project name is given, sorted by scene-number key (which can raise
`TypeError` on mixed keys). -/
def find_video_files (projectName : Option (List Char))
    (mp4Files : List (List Char)) : Except Unit (List (List Char)) :=
  let files :=
    match projectName with
    | some p => mp4Files.filter (fun f => containsSub (pyLower p) (pyLower f))
    | none => mp4Files
  if files.isEmpty then .ok []
  else sortVideoFiles files

/-- `main` of `combine_all.py` (lines 249-421). -/
def combineMain (args : CombineArgs) (env : CombineEnv) :
    List Event × RunOutcome :=
  let ev := [Event.ffmpegVersion]
  if !env.ffmpegInstalled then (ev, .exit 1)
  else
    match find_video_files args.projectName env.mp4Files with
    | .error _ => (ev, .typeErrorCrash)
    | .ok files =>
      if files.isEmpty then (ev, .exit 1)
      else if files.length = 1 then
        -- lines 321-324: "Only one video found. Nothing to combine."
        (ev, .exit 0)
      else if args.dryRun then
        -- dry-run branch (lines 327-338): one plan entry per file
        (ev ++ List.replicate files.length Event.planEntry, .exit 0)
      else
        -- concat list file is written locally, then ffmpeg runs
        let ev := ev ++ [Event.fileWrite, Event.ffmpegMux]
        if !env.muxOk then (ev, .exit 1)
        else if args.music then
          let ev := ev ++ [Event.ffmpegMux]
          if !env.musicOk then (ev, .exit 1) else (ev, .exit 0)
        else (ev, .exit 0)

/-! ### Per-scene failure predicates and substring predicate -/

/-- The conditions under which one iteration of the
`generate_images.py` scene loop ends in `failed += 1`: empty prompt, an
exception from task creation or polling, an empty result list, or a
failing Airtable update. -/
def imagesSceneFails (re : AirRecord × ImagesSceneEnv) : Bool :=
  re.1.start_image_prompt.getD "" = "" ||
    match re.2.gen with
    | .ok urls => urls.isEmpty || !re.2.updateOk
    | _ => true

/-- The conditions under which one iteration of the
`generate_videos.py` scene loop ends in `fail_count += 1`: unreadable
`start_image`, or (for a non-skipped scene) an exception from task
creation, polling, the empty-URL check, the Airtable update, or the
local download. -/
def videosSceneFails (skipDownload : Bool)
    (re : AirRecord × VideosSceneEnv) : Bool :=
  if !attPresent re.1.start_image then true
  else if re.1.video_prompt.getD "" = "" then false
  else
    match re.2.gen with
    | .ok urls => urls.isEmpty || !re.2.updateOk ||
        (!skipDownload && !re.2.downloadOk)
    | _ => true

/-- `m` occurs contiguously inside `l`. -/
def SubstringOf (m l : List Char) : Prop :=
  ∃ a b, l = a ++ m ++ b

/-! ## Theorems -/

theorem attPresent_iff (o : Option (List String)) :
    attPresent o = true ↔ ∃ l, o = some l ∧ l ≠ [] := by
  cases o with
  | none => simp [attPresent]
  | some l => simp [attPresent]

/-- C1: `get_scenes_from_airtable` of the video stage selects a
project's record iff it has a non-empty `start_image` and no non-empty
`scene_video`, and returns exactly (no more, no fewer than) the records
of the fetched list satisfying that predicate, in store order. -/
theorem C1_video_stage_eligibility (records : List AirRecord) :
    get_scenes_filter records =
      records.filter (fun r => attPresent r.start_image && !attPresent r.scene_video) ∧
    ∀ r : AirRecord,
      r ∈ get_scenes_filter records ↔
        r ∈ records ∧ HasImageRef r ∧ ¬HasVideoRef r := by
  constructor
  · rfl
  · intro r
    simp only [get_scenes_filter, List.mem_filter, eligibleForVideoB,
      Bool.and_eq_true, Bool.not_eq_true']
    constructor
    · rintro ⟨hr, himg, hvid⟩
      refine ⟨hr, (attPresent_iff _).1 himg, ?_⟩
      intro hv
      rw [(attPresent_iff r.scene_video).2 hv] at hvid
      cases hvid
    · rintro ⟨hr, himg, hvid⟩
      refine ⟨hr, (attPresent_iff _).2 himg, ?_⟩
      cases hav : attPresent r.scene_video with
      | false => rfl
      | true => exact absurd ((attPresent_iff _).1 hav) hvid

/-! ### Length bounds for `truncate_prompt` (C3) -/

theorem accumSentences_length_le (m : Nat) :
    ∀ (ss : List (List Char)) (acc : List Char),
      (accumSentences m ss acc).length ≤ max acc.length (m - 50) := by
  intro ss
  induction ss with
  | nil => intro acc; simp [accumSentences]
  | cons s rest ih =>
    intro acc
    rw [accumSentences]
    split
    · next hcond =>
      refine le_trans (ih (acc ++ s ++ ['.'])) ?_
      have hlen : (acc ++ s ++ ['.']).length = acc.length + s.length + 1 := by
        simp; omega
      have h50 : acc.length + s.length + 1 ≤ m - 50 := by omega
      rw [hlen]
      omega
    · omega

theorem pyStrip_length_le (s : List Char) :
    (pyStrip s).length ≤ s.length := by
  unfold pyStrip
  have h1 : (s.dropWhile pyIsSpace).length ≤ s.length :=
    (List.dropWhile_sublist (l := s) (p := pyIsSpace)).length_le
  have h2 : ((s.dropWhile pyIsSpace).reverse.dropWhile pyIsSpace).length ≤
      (s.dropWhile pyIsSpace).reverse.length :=
    (List.dropWhile_sublist _).length_le
  simp only [List.length_reverse] at *
  omega

theorem truncate_prompt_length_le (p : List Char) (m : Nat)
    (hm : 3 ≤ m) (hp : m < p.length) :
    (truncate_prompt p m).length ≤ m := by
  unfold truncate_prompt
  rw [if_neg (by omega)]
  refine le_trans (pyStrip_length_le _) ?_
  split
  · have h0 : (0 : Int) ≤ (m : Int) - 3 := by omega
    simp only [pySliceTo, if_pos h0]
    have htn : ((m : Int) - 3).toNat = m - 3 := by omega
    rw [htn]
    simp only [List.length_append, List.length_take, List.length_cons,
      List.length_nil]
    have : min (m - 3) p.length ≤ m - 3 := Nat.min_le_left _ _
    omega
  · have := accumSentences_length_le m (pySplit '.' p) []
    simp only [List.length_nil] at this
    omega

theorem truncate_prompt_short (p : List Char) (m : Nat)
    (hp : p.length ≤ m) : truncate_prompt p m = p := by
  unfold truncate_prompt
  rw [if_pos hp]

/-- C3: for each configured model prompt limit (1000 for `z-image`,
10000 for `nano-banana-pro` and `sora-2`), `truncate_prompt` maps a
prompt longer than the limit to one of length at most the limit,
returns a prompt of length at most the limit unchanged, and is
therefore idempotent. -/
theorem C3_truncate_prompt_bounds (p : List Char) (m : Nat)
    (hm : m ∈ modelPromptLimits) :
    (m < p.length → (truncate_prompt p m).length ≤ m) ∧
    (p.length ≤ m → truncate_prompt p m = p) ∧
    truncate_prompt (truncate_prompt p m) m = truncate_prompt p m := by
  have hm3 : 3 ≤ m := by
    simp only [modelPromptLimits, List.mem_cons, List.not_mem_nil,
      or_false] at hm
    rcases hm with h | h <;> omega
  refine ⟨fun h => truncate_prompt_length_le p m hm3 h,
    fun h => truncate_prompt_short p m h, ?_⟩
  by_cases h : p.length ≤ m
  · rw [truncate_prompt_short p m h, truncate_prompt_short p m h]
  · exact truncate_prompt_short _ m
      (truncate_prompt_length_le p m hm3 (by omega))

/-- Witness for C3 at the `z-image` limit.  The 1050-character prompt
`aa…a` has no short sentence split, so the hard-truncation branch
applies and the result is 1000 characters. -/
theorem C3_truncate_prompt_bounds_witness :
    1000 ∈ modelPromptLimits ∧
    ((1000 < (List.replicate 1050 'a').length →
        (truncate_prompt (List.replicate 1050 'a') 1000).length ≤ 1000) ∧
      ((List.replicate 1050 'a').length ≤ 1000 →
        truncate_prompt (List.replicate 1050 'a') 1000 = List.replicate 1050 'a') ∧
      truncate_prompt (truncate_prompt (List.replicate 1050 'a') 1000) 1000 =
        truncate_prompt (List.replicate 1050 'a') 1000) :=
  ⟨by decide, C3_truncate_prompt_bounds (List.replicate 1050 'a') 1000 (by decide)⟩

/-! ### Scene-number ordering (C5, C6) -/

theorem numKeyed_iff (n : List Char) :
    numKeyed n = true ↔ ∃ k, get_scene_number n = SortKey.num k := by
  unfold numKeyed
  cases h : get_scene_number n <;> simp

theorem numKey_eq (n : List Char) (k : Nat)
    (h : get_scene_number n = SortKey.num k) : numKey n = k := by
  unfold numKey
  rw [h]

theorem pyInsertByKey_allNum (x : List Char) (hx : numKeyed x = true) :
    ∀ l : List (List Char), (∀ y ∈ l, numKeyed y = true) →
      ∃ l', pyInsertByKey x l = .ok l' ∧ l'.Perm (x :: l) ∧
        (∀ y ∈ l', numKeyed y = true) ∧
        (l.Sorted (fun a b => numKey a ≤ numKey b) →
          l'.Sorted (fun a b => numKey a ≤ numKey b)) := by
  obtain ⟨kx, hkx⟩ := (numKeyed_iff x).1 hx
  intro l
  induction l with
  | nil =>
    intro _
    refine ⟨[x], rfl, List.Perm.refl _, ?_, ?_⟩
    · intro y hy
      rcases List.mem_cons.1 hy with h | h
      · subst h; exact hx
      · simp at h
    · intro _
      simp
  | cons y ys ih =>
    intro hall
    obtain ⟨ky, hky⟩ := (numKeyed_iff y).1 (hall y (by simp))
    by_cases hlt : kx < ky
    · refine ⟨x :: y :: ys, ?_, List.Perm.refl _, ?_, ?_⟩
      · simp only [pyInsertByKey, hkx, hky, pyKeyLt, decide_eq_true hlt]
      · intro z hz
        rcases List.mem_cons.1 hz with h | h
        · subst h; exact hx
        · exact hall z h
      · intro hs
        rw [List.sorted_cons]
        refine ⟨?_, hs⟩
        intro b hb
        rcases List.mem_cons.1 hb with h | h
        · subst h
          rw [numKey_eq x kx hkx, numKey_eq b ky hky]; omega
        · have h1 := (List.sorted_cons.1 hs).1 b h
          rw [numKey_eq x kx hkx]
          rw [numKey_eq y ky hky] at h1
          omega
    · obtain ⟨r, hr, hperm, hnum, hsort⟩ := ih (fun z hz => hall z (by simp [hz]))
      refine ⟨y :: r, ?_, ?_, ?_, ?_⟩
      · simp only [pyInsertByKey, hkx, hky, pyKeyLt,
          decide_eq_false hlt, hr]
      · exact (hperm.cons y).trans (List.Perm.swap x y ys)
      · intro z hz
        rcases List.mem_cons.1 hz with h | h
        · subst h; exact hall z (by simp)
        · exact hnum z h
      · intro hs
        rw [List.sorted_cons]
        refine ⟨?_, hsort (List.sorted_cons.1 hs).2⟩
        intro b hb
        rcases List.mem_cons.1 ((hperm.mem_iff).1 hb) with h | h
        · subst h
          rw [numKey_eq b kx hkx, numKey_eq y ky hky]
          omega
        · exact (List.sorted_cons.1 hs).1 b h

theorem sortVideoFiles_allNum (names : List (List Char))
    (h : ∀ n ∈ names, numKeyed n = true) :
    ∃ l', sortVideoFiles names = .ok l' ∧ l'.Perm names ∧
      l'.Sorted (fun a b => numKey a ≤ numKey b) := by
  induction names with
  | nil => exact ⟨[], rfl, List.Perm.refl _, by simp⟩
  | cons x xs ih =>
    obtain ⟨r, hr, hperm, hsort⟩ := ih (fun z hz => h z (by simp [hz]))
    have hnum : ∀ y ∈ r, numKeyed y = true := fun y hy =>
      h y (by simp [hperm.mem_iff.1 hy])
    obtain ⟨l', hl', hperm', hnum', hsort'⟩ :=
      pyInsertByKey_allNum x (h x (by simp)) r hnum
    refine ⟨l', ?_, hperm'.trans (hperm.cons x), hsort' hsort⟩
    simp only [sortVideoFiles, hr, hl']

/-- C5: when every filename in the list carries a parseable scene
number, `video_files.sort(key=get_scene_number)` succeeds and orders
the files by that number, numerically; in particular
`scene_2_x.mp4, scene_10_y.mp4, scene_1_z.mp4` come out as
`scene_1_z, scene_2_x, scene_10_y`. -/
theorem C5_numeric_scene_order (names : List (List Char))
    (h : ∀ n ∈ names, numKeyed n = true) :
    (∃ l', sortVideoFiles names = .ok l' ∧ l'.Perm names ∧
        l'.Sorted (fun a b => numKey a ≤ numKey b)) ∧
    sortVideoFiles
        ["scene_2_x.mp4".toList, "scene_10_y.mp4".toList,
          "scene_1_z.mp4".toList] =
      .ok ["scene_1_z.mp4".toList, "scene_2_x.mp4".toList,
          "scene_10_y.mp4".toList] :=
  ⟨sortVideoFiles_allNum names h, by rfl⟩

/-- Witness for C5 on the three files named in the claim. -/
theorem C5_numeric_scene_order_witness :
    (∀ n ∈ ["scene_2_x.mp4".toList, "scene_10_y.mp4".toList,
        "scene_1_z.mp4".toList], numKeyed n = true) ∧
    ((∃ l', sortVideoFiles ["scene_2_x.mp4".toList, "scene_10_y.mp4".toList,
          "scene_1_z.mp4".toList] = .ok l' ∧
        l'.Perm ["scene_2_x.mp4".toList, "scene_10_y.mp4".toList,
          "scene_1_z.mp4".toList] ∧
        l'.Sorted (fun a b => numKey a ≤ numKey b)) ∧
      sortVideoFiles ["scene_2_x.mp4".toList, "scene_10_y.mp4".toList,
          "scene_1_z.mp4".toList] =
        .ok ["scene_1_z.mp4".toList, "scene_2_x.mp4".toList,
          "scene_10_y.mp4".toList]) :=
  ⟨by decide, C5_numeric_scene_order _ (by decide)⟩

/-! ### Batch accounting (C2, C7) -/

theorem imagesStep_spec (s : BatchSummary) (re : AirRecord × ImagesSceneEnv) :
    (imagesStep s re).attempted = s.attempted + 1 ∧
    (imagesStep s re).successful + (imagesStep s re).failed =
      s.successful + s.failed + 1 ∧
    (imagesStep s re).failed =
      s.failed + (if imagesSceneFails re then 1 else 0) := by
  obtain ⟨r, gen, upd⟩ := re
  cases gen <;>
    simp only [imagesStep, imagesSceneFails] <;>
    split_ifs <;> simp_all <;> omega

theorem imagesBatch_foldl (l : List (AirRecord × ImagesSceneEnv)) :
    ∀ s : BatchSummary,
      (l.foldl imagesStep s).attempted = s.attempted + l.length ∧
      (l.foldl imagesStep s).successful + (l.foldl imagesStep s).failed =
        s.successful + s.failed + l.length ∧
      (l.foldl imagesStep s).failed = s.failed + l.countP imagesSceneFails := by
  induction l with
  | nil => intro s; simp
  | cons x xs ih =>
    intro s
    obtain ⟨h1, h2, h3⟩ := imagesStep_spec s x
    obtain ⟨g1, g2, g3⟩ := ih (imagesStep s x)
    simp only [List.foldl_cons, List.length_cons, List.countP_cons]
    rw [h1] at g1
    rw [g2, h2, g3, h3]
    refine ⟨by omega, by omega, ?_⟩
    split_ifs <;> omega

theorem videosStep_spec (u : ℚ) (sd : Bool) (s : BatchSummary)
    (re : AirRecord × VideosSceneEnv) :
    (videosStep u sd s re).attempted = s.attempted + 1 ∧
    (videosStep u sd s re).successful + (videosStep u sd s re).failed =
      s.successful + s.failed + (if videoSkipped re.1 then 0 else 1) ∧
    (videosStep u sd s re).failed =
      s.failed + (if videosSceneFails sd re then 1 else 0) := by
  obtain ⟨r, gen, upd, dl⟩ := re
  cases gen <;>
    simp only [videosStep, videosSceneFails, videoSkipped] <;>
    split_ifs <;> simp_all <;> omega

theorem videosStep_cost (u : ℚ) (sd : Bool) (s : BatchSummary)
    (re : AirRecord × VideosSceneEnv)
    (h : s.cost = (s.successful : ℚ) * u) :
    (videosStep u sd s re).cost = ((videosStep u sd s re).successful : ℚ) * u := by
  obtain ⟨r, gen, upd, dl⟩ := re
  cases gen <;>
    simp only [videosStep] <;>
    split_ifs <;> simp_all <;> push_cast <;> ring

theorem videosBatch_foldl (u : ℚ) (sd : Bool)
    (l : List (AirRecord × VideosSceneEnv)) :
    ∀ s : BatchSummary,
      (l.foldl (videosStep u sd) s).attempted = s.attempted + l.length ∧
      (l.foldl (videosStep u sd) s).successful +
          (l.foldl (videosStep u sd) s).failed +
          l.countP (fun re => videoSkipped re.1) =
        s.successful + s.failed + l.length ∧
      (l.foldl (videosStep u sd) s).failed =
        s.failed + l.countP (videosSceneFails sd) ∧
      (s.cost = (s.successful : ℚ) * u →
        (l.foldl (videosStep u sd) s).cost =
          ((l.foldl (videosStep u sd) s).successful : ℚ) * u) := by
  induction l with
  | nil => intro s; simp
  | cons x xs ih =>
    intro s
    obtain ⟨h1, h2, h3⟩ := videosStep_spec u sd s x
    obtain ⟨g1, g2, g3, g4⟩ := ih (videosStep u sd s x)
    simp only [List.foldl_cons, List.length_cons, List.countP_cons]
    rw [h1] at g1
    refine ⟨by omega, ?_, ?_, ?_⟩
    · cases hsk : videoSkipped x.1 <;> simp [hsk] at h2 ⊢ <;> omega
    · cases hsf : videosSceneFails sd x <;> simp [hsf] at h3 ⊢ <;> omega
    · intro hc
      exact g4 (videosStep_cost u sd s x hc)

/-- C2 (counterexample): in the video stage, a scene whose record has a
readable `start_image` but no `video_prompt` is skipped and counted in
neither tally, so `successful + failed` falls short of the number of
scenes in the batch. -/
theorem C2_batch_accounting_counterexample :
    (let s := videosBatch soraCost false
        [({ id := "rec1", scene := some "Scene 1",
            start_image_prompt := some "img prompt",
            video_prompt := none,
            start_image := some ["http-img-url"], scene_video := none },
          { gen := GenOutcome.ok ["http-vid-url"], updateOk := true,
            downloadOk := true })];
      s.successful + s.failed ≠ 1) := by
  decide

/-- C2 (amended): in the image stage `successful + failed` equals the
number of scenes in the batch, and the reported cost is
`successful × unit_cost`; in the video stage the same holds once the
skipped scenes (readable image, empty video prompt) are excluded:
`successful + failed + skipped = total`, and the accumulated
`actual_cost` equals `successful × unit_cost`. -/
theorem C2_batch_accounting_amended
    (li : List (AirRecord × ImagesSceneEnv)) (unitI : ℚ)
    (lv : List (AirRecord × VideosSceneEnv)) (unitV : ℚ) (sd : Bool) :
    ((imagesBatch li).successful + (imagesBatch li).failed = li.length ∧
      imagesRealizedCost unitI (imagesBatch li) =
        ((imagesBatch li).successful : ℚ) * unitI) ∧
    ((videosBatch unitV sd lv).successful + (videosBatch unitV sd lv).failed +
        lv.countP (fun re => videoSkipped re.1) = lv.length ∧
      (videosBatch unitV sd lv).cost =
        ((videosBatch unitV sd lv).successful : ℚ) * unitV) := by
  have hi := imagesBatch_foldl li {}
  have hv := videosBatch_foldl unitV sd lv {}
  refine ⟨⟨?_, rfl⟩, ?_, ?_⟩
  · have := hi.2.1
    simpa [imagesBatch] using this
  · have := hv.2.1
    simpa [videosBatch] using this
  · have := hv.2.2.2
    simp only [videosBatch]
    exact this (by simp)

/-- C7: neither generation loop ever aborts a batch on a per-scene
failure: every scene in the batch is attempted (one loop iteration
each), and the `failed` counter records exactly the scenes whose
processing failed (submit rejection, transport error, remote-reported
poll failure, timeout, empty result, store-update or download error,
or unusable record). -/
theorem C7_per_scene_failure_isolation
    (li : List (AirRecord × ImagesSceneEnv))
    (lv : List (AirRecord × VideosSceneEnv)) (unitV : ℚ) (sd : Bool) :
    (imagesBatch li).attempted = li.length ∧
    (imagesBatch li).failed = li.countP imagesSceneFails ∧
    (videosBatch unitV sd lv).attempted = lv.length ∧
    (videosBatch unitV sd lv).failed = lv.countP (videosSceneFails sd) := by
  have hi := imagesBatch_foldl li {}
  have hv := videosBatch_foldl unitV sd lv {}
  refine ⟨?_, ?_, ?_, ?_⟩
  · simpa [imagesBatch] using hi.1
  · simpa [imagesBatch] using hi.2.2
  · simpa [videosBatch] using hv.1
  · simpa [videosBatch] using hv.2.2.1

/-- C6 (code bug): on a file list mixing a parseable scene number with
an unparseable name, `get_scene_number` hands Python's sort an `int`
key next to a `str` key, and the comparison raises `TypeError` instead
of sorting the unparseable names last — contradicting the code's own
comment "If no scene number found, use filename alphabetically". -/
theorem C6_mixed_keys_type_error :
    sortVideoFiles ["scene_1_a.mp4".toList, "other.mp4".toList] =
      .error () := by rfl

/-! ### Polling timeout (C4) -/

theorem imagePollLoop_pending_timeout (trace : Nat → PollResp)
    (hp : ∀ n, (trace n).isPendingState) (maxWait : Nat) :
    ∀ d e n, maxWait - e ≤ d →
      ∃ ef, imagePollLoop trace maxWait n e = .timeout ef ∧ maxWait ≤ ef := by
  intro d
  induction d with
  | zero =>
    intro e n hd
    have he : ¬e < maxWait := by omega
    exact ⟨e, by rw [imagePollLoop, dif_neg he], by omega⟩
  | succ d ih =>
    intro e n hd
    by_cases he : e < maxWait
    · have hp' := hp n
      rw [imagePollLoop, dif_pos he]
      cases htr : trace n with
      | transport =>
        rw [htr] at hp'
        simp [PollResp.isPendingState] at hp'
      | state st urls fc fm =>
        rw [htr] at hp'
        obtain ⟨hs1, hs2⟩ := hp'
        dsimp only
        rw [if_neg hs1, if_neg hs2]
        by_cases hw : st = "waiting" ∨ st = "queuing" ∨ st = "generating"
        · rw [if_pos hw]
          have hpos : 0 < imageSleepInterval e := by
            simp only [imageSleepInterval]; split_ifs <;> omega
          exact ih (e + imageSleepInterval e) (n + 1) (by omega)
        · rw [if_neg hw]
          exact ih (e + 5) (n + 1) (by omega)
    · exact ⟨e, by rw [imagePollLoop, dif_neg he], by omega⟩

theorem videoPollLoop_pending_timeout (trace : Nat → PollResp)
    (hp : ∀ n, (trace n).isPendingState) (maxWait : Nat) :
    ∀ d e n, maxWait - e ≤ d →
      ∃ ef, videoPollLoop trace maxWait n e = .timeout ef ∧ maxWait ≤ ef := by
  intro d
  induction d with
  | zero =>
    intro e n hd
    have he : ¬e < maxWait := by omega
    exact ⟨e, by rw [videoPollLoop, dif_neg he], by omega⟩
  | succ d ih =>
    intro e n hd
    by_cases he : e < maxWait
    · have hp' := hp n
      rw [videoPollLoop, dif_pos he]
      cases htr : trace n with
      | transport =>
        rw [htr] at hp'
        simp [PollResp.isPendingState] at hp'
      | state st urls fc fm =>
        rw [htr] at hp'
        obtain ⟨hs1, hs2⟩ := hp'
        dsimp only
        rw [if_neg hs1, if_neg hs2]
        have hpos : 0 < videoSleepInterval e := by
          simp only [videoSleepInterval]; split_ifs <;> omega
        exact ih (e + videoSleepInterval e) (n + 1) (by omega)
    · exact ⟨e, by rw [videoPollLoop, dif_neg he], by omega⟩

/-- C4: a polling run whose remote status never leaves the pending
states terminates with a `timeout` result — a constructor distinct from
the remote-reported `failed` — and the elapsed time at which the loop
gives up is at or after the job type's wall-clock budget (600 s for
images, 900 s for videos), never earlier. -/
theorem C4_poll_timeout_at_budget (trace : Nat → PollResp)
    (hp : ∀ n, (trace n).isPendingState) :
    (∃ ef, imagePollLoop trace 600 0 0 = .timeout ef ∧ 600 ≤ ef) ∧
    (∃ ef, videoPollLoop trace 900 0 0 = .timeout ef ∧ 900 ≤ ef) :=
  ⟨imagePollLoop_pending_timeout trace hp 600 600 0 0 (by omega),
    videoPollLoop_pending_timeout trace hp 900 900 0 0 (by omega)⟩

/-- Witness for C4: a trace that reports `generating` forever. -/
theorem C4_poll_timeout_at_budget_witness :
    (∀ n, ((fun (_ : Nat) => PollResp.state "generating" [] "" "") n).isPendingState) ∧
    ((∃ ef, imagePollLoop (fun (_ : Nat) => PollResp.state "generating" [] "" "")
        600 0 0 = .timeout ef ∧ 600 ≤ ef) ∧
      (∃ ef, videoPollLoop (fun (_ : Nat) => PollResp.state "generating" [] "" "")
        900 0 0 = .timeout ef ∧ 900 ≤ ef)) :=
  ⟨fun _ => ⟨by decide, by decide⟩,
    C4_poll_timeout_at_budget _ (fun _ => ⟨by decide, by decide⟩)⟩

/-! ### Prompt creation embeds scene fields (C9) -/

theorem dropWhile_append_of_witness (p : Char → Bool) :
    ∀ (a rest : List Char), (∃ c ∈ a, p c = false) →
      (a ++ rest).dropWhile p = a.dropWhile p ++ rest := by
  intro a
  induction a with
  | nil =>
    intro rest ha
    obtain ⟨c, hc, _⟩ := ha
    simp at hc
  | cons x a' ih =>
    intro rest ha
    by_cases hx : p x = true
    · have ha' : ∃ c ∈ a', p c = false := by
        obtain ⟨c, hc, hf⟩ := ha
        rcases List.mem_cons.1 hc with h | h
        · subst h; rw [hx] at hf; cases hf
        · exact ⟨c, h, hf⟩
      simp only [List.cons_append, List.dropWhile_cons, hx, if_true]
      exact ih rest ha'
    · simp only [List.cons_append, List.dropWhile_cons, hx, if_false]
      simp at hx
      simp [hx]

theorem pyStrip_keeps_inner (a m b : List Char)
    (ha : ∃ c ∈ a, pyIsSpace c = false)
    (hb : ∃ c ∈ b, pyIsSpace c = false) :
    SubstringOf m (pyStrip (a ++ m ++ b)) := by
  unfold pyStrip
  rw [List.append_assoc, dropWhile_append_of_witness pyIsSpace a (m ++ b) ha]
  rw [List.reverse_append, List.reverse_append]
  have hb' : ∃ c ∈ b.reverse, pyIsSpace c = false := by
    obtain ⟨c, hc, hf⟩ := hb
    exact ⟨c, List.mem_reverse.2 hc, hf⟩
  rw [List.append_assoc,
    dropWhile_append_of_witness pyIsSpace b.reverse
      (m.reverse ++ (a.dropWhile pyIsSpace).reverse) hb']
  refine ⟨(a.dropWhile pyIsSpace), (b.reverse.dropWhile pyIsSpace).reverse, ?_⟩
  simp [List.append_assoc]

/-- The prompt pair built for one scene embeds the scene's
`environment`, `lighting` and `camera` verbatim in both prompts, and
carries the scene's number. -/
theorem mkPromptPair_embeds (subject : List Char) (sc : Scene) :
    (mkPromptPair subject sc).scene_number = sc.scene_number ∧
    SubstringOf sc.environment (mkPromptPair subject sc).image_prompt ∧
    SubstringOf sc.lighting (mkPromptPair subject sc).image_prompt ∧
    SubstringOf sc.camera (mkPromptPair subject sc).image_prompt ∧
    SubstringOf sc.environment (mkPromptPair subject sc).video_prompt ∧
    SubstringOf sc.lighting (mkPromptPair subject sc).video_prompt ∧
    SubstringOf sc.camera (mkPromptPair subject sc).video_prompt := by
  refine ⟨rfl, ?_, ?_, ?_, ?_, ?_, ?_⟩
  · simp only [mkPromptPair]
    have heq : imagePromptRaw subject sc =
        (subject ++ "\n\nSetting: ".toList) ++ sc.environment ++
          ("\nLighting: ".toList ++ (sc.lighting ++ ("\nCamera: ".toList ++
            (sc.camera ++ ("\n\nThe subject is in this position/pose: ".toList ++
              ((pySplit '.' sc.action).headI ++ (".".toList ++
                ("\n\nStyle: Photorealistic, high quality, professional photography\nDetails: Sharp focus, natural colors, ".toList ++
                  pyLower sc.lighting)))))))) := by
      simp only [imagePromptRaw, List.append_assoc]
    rw [heq]
    exact pyStrip_keeps_inner _ _ _
      ⟨'S', List.mem_append.2 (Or.inr (by decide)), by decide⟩
      ⟨'L', List.mem_append.2 (Or.inl (by decide)), by decide⟩
  · simp only [mkPromptPair]
    have heq : imagePromptRaw subject sc =
        (subject ++ ("\n\nSetting: ".toList ++ (sc.environment ++
          "\nLighting: ".toList))) ++ sc.lighting ++
          ("\nCamera: ".toList ++ (sc.camera ++
            ("\n\nThe subject is in this position/pose: ".toList ++
              ((pySplit '.' sc.action).headI ++ (".".toList ++
                ("\n\nStyle: Photorealistic, high quality, professional photography\nDetails: Sharp focus, natural colors, ".toList ++
                  pyLower sc.lighting)))))) := by
      simp only [imagePromptRaw, List.append_assoc]
    rw [heq]
    exact pyStrip_keeps_inner _ _ _
      ⟨'S', List.mem_append.2 (Or.inr (List.mem_append.2 (Or.inl (by decide)))), by decide⟩
      ⟨'C', List.mem_append.2 (Or.inl (by decide)), by decide⟩
  · simp only [mkPromptPair]
    have heq : imagePromptRaw subject sc =
        (subject ++ ("\n\nSetting: ".toList ++ (sc.environment ++
          ("\nLighting: ".toList ++ (sc.lighting ++ "\nCamera: ".toList))))) ++
          sc.camera ++
          ("\n\nThe subject is in this position/pose: ".toList ++
            ((pySplit '.' sc.action).headI ++ (".".toList ++
              ("\n\nStyle: Photorealistic, high quality, professional photography\nDetails: Sharp focus, natural colors, ".toList ++
                pyLower sc.lighting)))) := by
      simp only [imagePromptRaw, List.append_assoc]
    rw [heq]
    exact pyStrip_keeps_inner _ _ _
      ⟨'S', List.mem_append.2 (Or.inr (List.mem_append.2 (Or.inl (by decide)))), by decide⟩
      ⟨'T', List.mem_append.2 (Or.inl (by decide)), by decide⟩
  · simp only [mkPromptPair]
    have heq : videoPromptRaw subject sc =
        ("Camera Type: ".toList ++ (sc.camera ++ ("\n\nMain Movement: ".toList ++
          (subject ++ (" ".toList ++ (sc.action ++ "\n\nSetting: ".toList)))))) ++
          sc.environment ++
          ("\nLighting: ".toList ++ (sc.lighting ++ ("\n\nMotion details: ".toList ++
            (sc.action ++ ("\nDuration: ".toList ++ (sc.duration ++ (" seconds".toList ++
              "\n\nStyle: Smooth, natural motion, high quality video, realistic physics".toList))))))) := by
      simp only [videoPromptRaw, List.append_assoc]
    rw [heq]
    exact pyStrip_keeps_inner _ _ _
      ⟨'C', List.mem_append.2 (Or.inl (by decide)), by decide⟩
      ⟨'L', List.mem_append.2 (Or.inl (by decide)), by decide⟩
  · simp only [mkPromptPair]
    have heq : videoPromptRaw subject sc =
        ("Camera Type: ".toList ++ (sc.camera ++ ("\n\nMain Movement: ".toList ++
          (subject ++ (" ".toList ++ (sc.action ++ ("\n\nSetting: ".toList ++
            (sc.environment ++ "\nLighting: ".toList)))))))) ++
          sc.lighting ++
          ("\n\nMotion details: ".toList ++ (sc.action ++ ("\nDuration: ".toList ++
            (sc.duration ++ (" seconds".toList ++
              "\n\nStyle: Smooth, natural motion, high quality video, realistic physics".toList))))) := by
      simp only [videoPromptRaw, List.append_assoc]
    rw [heq]
    exact pyStrip_keeps_inner _ _ _
      ⟨'C', List.mem_append.2 (Or.inl (by decide)), by decide⟩
      ⟨'M', List.mem_append.2 (Or.inl (by decide)), by decide⟩
  · simp only [mkPromptPair]
    have heq : videoPromptRaw subject sc =
        "Camera Type: ".toList ++ sc.camera ++
          ("\n\nMain Movement: ".toList ++ (subject ++ (" ".toList ++
            (sc.action ++ ("\n\nSetting: ".toList ++ (sc.environment ++
              ("\nLighting: ".toList ++ (sc.lighting ++
                ("\n\nMotion details: ".toList ++ (sc.action ++
                  ("\nDuration: ".toList ++ (sc.duration ++ (" seconds".toList ++
                    "\n\nStyle: Smooth, natural motion, high quality video, realistic physics".toList))))))))))))) := by
      simp only [videoPromptRaw, List.append_assoc]
    rw [heq]
    exact pyStrip_keeps_inner _ _ _
      ⟨'C', by decide, by decide⟩
      ⟨'M', List.mem_append.2 (Or.inl (by decide)), by decide⟩

/-- C9: for an analysis with `N` scenes, `create_prompts` emits exactly
`N` prompt pairs, pairwise aligned with the scenes in scene order, and
each pair embeds that scene's `environment`, `lighting` and `camera`
field values verbatim as substrings of both generated prompts. -/
theorem C9_prompts_embed_scene_fields (scenes : List Scene)
    (subject : List Char) :
    (create_prompts scenes subject).length = scenes.length ∧
    List.Forall₂ (fun sc p =>
      p.scene_number = sc.scene_number ∧
      SubstringOf sc.environment p.image_prompt ∧
      SubstringOf sc.lighting p.image_prompt ∧
      SubstringOf sc.camera p.image_prompt ∧
      SubstringOf sc.environment p.video_prompt ∧
      SubstringOf sc.lighting p.video_prompt ∧
      SubstringOf sc.camera p.video_prompt)
      scenes (create_prompts scenes subject) := by
  constructor
  · simp [create_prompts]
  · induction scenes with
    | nil => simp [create_prompts]
    | cons sc rest ih =>
      exact List.Forall₂.cons (mkPromptPair_embeds subject sc) ih

/-! ### Dry-run behaviour (C8) and single-file early exit (C10) -/

/-- C8 (counterexample): a dry-run invocation of the image stage still
performs a remote call — the Airtable read that enumerates the scenes —
so its event trace restricted to remote events is not empty. -/
theorem C8_dry_run_counterexample :
    (imagesMain { dryRun := true, skipApproval := false, testMode := false }
        { records :=
            [{ id := "rec1", scene := some "Scene 1",
               start_image_prompt := some "a prompt",
               video_prompt := some "v",
               start_image := none, scene_video := none }],
          testRecords := [],
          createdTest :=
            { id := "t", scene := none,
              start_image_prompt := none, video_prompt := none,
              start_image := none, scene_video := none },
          approve := false, refAvailable := false,
          sceneEnv := [] }).1.filter Event.isRemote ≠ [] := by
  decide

/-- C8 (amended): with the dry-run flag set (and outside test mode),
each generation stage performs no generation-API call, no store write
and no download — its only remote interaction is the single store read
used to enumerate the scenes — and it prints one plan entry per
eligible scene before exiting 0; the combine stage performs no remote
interaction at all and, when it reaches its dry-run branch (FFmpeg
present, at least two files found), prints one plan entry per input
file. -/
theorem C8_dry_run_amended
    (ia : ImagesArgs) (ie : ImagesEnv) (va : VideosArgs) (ve : VideosEnv)
    (ca : CombineArgs) (ce : CombineEnv) (files : List (List Char)) :
    (ia.dryRun = true → ia.testMode = false → ie.records ≠ [] →
      (imagesMain ia ie).1 =
        Event.storeRead :: List.replicate ie.records.length Event.planEntry ∧
      (imagesMain ia ie).2 = RunOutcome.exit 0 ∧
      ∀ ev ∈ (imagesMain ia ie).1, ev.isRemote = true → ev = Event.storeRead) ∧
    (va.dryRun = true → va.testMode = false →
      get_scenes_filter ve.records ≠ [] →
      (videosMain va ve).1 =
        Event.storeRead ::
          List.replicate (get_scenes_filter ve.records).length Event.planEntry ∧
      (videosMain va ve).2 = RunOutcome.exit 0 ∧
      ∀ ev ∈ (videosMain va ve).1, ev.isRemote = true → ev = Event.storeRead) ∧
    (ca.dryRun = true → ce.ffmpegInstalled = true →
      find_video_files ca.projectName ce.mp4Files = .ok files →
      2 ≤ files.length →
      (combineMain ca ce).1 =
        Event.ffmpegVersion :: List.replicate files.length Event.planEntry ∧
      (combineMain ca ce).2 = RunOutcome.exit 0 ∧
      ∀ ev ∈ (combineMain ca ce).1, ev.isRemote = false) := by
  refine ⟨?_, ?_, ?_⟩
  · intro hd ht hr
    have hne : ie.records.isEmpty = false := by
      cases h : ie.records with
      | nil => exact absurd h hr
      | cons a l => rfl
    have htrace : imagesMain ia ie =
        (Event.storeRead :: List.replicate ie.records.length Event.planEntry,
          RunOutcome.exit 0) := by
      simp [imagesMain, ht, hne, hd]
    refine ⟨by rw [htrace], by rw [htrace], ?_⟩
    rw [htrace]
    intro ev hev hrem
    rcases List.mem_cons.1 hev with h | h
    · exact h
    · rw [List.eq_of_mem_replicate h] at hrem
      cases hrem
  · intro hd ht hr
    have hne : (get_scenes_filter ve.records).isEmpty = false := by
      cases h : get_scenes_filter ve.records with
      | nil => exact absurd h hr
      | cons a l => rfl
    have htrace : videosMain va ve =
        (Event.storeRead ::
          List.replicate (get_scenes_filter ve.records).length Event.planEntry,
          RunOutcome.exit 0) := by
      simp [videosMain, ht, hne, hd]
    refine ⟨by rw [htrace], by rw [htrace], ?_⟩
    rw [htrace]
    intro ev hev hrem
    rcases List.mem_cons.1 hev with h | h
    · exact h
    · rw [List.eq_of_mem_replicate h] at hrem
      cases hrem
  · intro hd hff hfv hlen
    have hne : files.isEmpty = false := by
      cases h : files with
      | nil => subst h; simp at hlen
      | cons a l => rfl
    have hone : files.length ≠ 1 := by omega
    have htrace : combineMain ca ce =
        (Event.ffmpegVersion :: List.replicate files.length Event.planEntry,
          RunOutcome.exit 0) := by
      simp [combineMain, hff, hfv, hne, hone, hd]
    refine ⟨by rw [htrace], by rw [htrace], ?_⟩
    rw [htrace]
    intro ev hev
    rcases List.mem_cons.1 hev with h | h
    · rw [h]; rfl
    · rw [List.eq_of_mem_replicate h]; rfl

/-- Witness for C8 (amended) at concrete dry-run invocations of all
three stages. -/
theorem C8_dry_run_amended_witness :
    ((imagesMain { dryRun := true, skipApproval := false, testMode := false }
        { records :=
            [{ id := "rec1", scene := some "Scene 1",
               start_image_prompt := some "a prompt",
               video_prompt := some "v",
               start_image := none, scene_video := none }],
          testRecords := [],
          createdTest :=
            { id := "t", scene := none,
              start_image_prompt := none, video_prompt := none,
              start_image := none, scene_video := none },
          approve := false, refAvailable := false, sceneEnv := [] }).1 =
      [Event.storeRead, Event.planEntry]) ∧
    ((videosMain
        { dryRun := true, skipApproval := false, testMode := false,
          skipDownload := false }
        { records :=
            [{ id := "rec2", scene := some "Scene 1",
               start_image_prompt := some "a prompt",
               video_prompt := some "v",
               start_image := some ["img-url"], scene_video := none }],
          approve := false, sceneEnv := [] }).1 =
      [Event.storeRead, Event.planEntry]) ∧
    ((combineMain
        { dryRun := true, reEncode := false, projectName := none,
          music := false }
        { ffmpegInstalled := true,
          mp4Files := ["scene_1_a.mp4".toList, "scene_2_b.mp4".toList],
          muxOk := true, musicOk := true }).1 =
      [Event.ffmpegVersion, Event.planEntry, Event.planEntry]) := by
  have h := C8_dry_run_amended
    { dryRun := true, skipApproval := false, testMode := false }
    { records :=
        [{ id := "rec1", scene := some "Scene 1",
           start_image_prompt := some "a prompt",
           video_prompt := some "v",
           start_image := none, scene_video := none }],
      testRecords := [],
      createdTest :=
        { id := "t", scene := none,
          start_image_prompt := none, video_prompt := none,
          start_image := none, scene_video := none },
      approve := false, refAvailable := false, sceneEnv := [] }
    { dryRun := true, skipApproval := false, testMode := false,
      skipDownload := false }
    { records :=
        [{ id := "rec2", scene := some "Scene 1",
           start_image_prompt := some "a prompt",
           video_prompt := some "v",
           start_image := some ["img-url"], scene_video := none }],
      approve := false, sceneEnv := [] }
    { dryRun := true, reEncode := false, projectName := none,
      music := false }
    { ffmpegInstalled := true,
      mp4Files := ["scene_1_a.mp4".toList, "scene_2_b.mp4".toList],
      muxOk := true, musicOk := true }
    ["scene_1_a.mp4".toList, "scene_2_b.mp4".toList]
  refine ⟨?_, ?_, ?_⟩
  · exact (h.1 rfl rfl (by decide)).1
  · exact (h.2.1 rfl rfl (by decide)).1
  · exact (h.2.2 rfl rfl (by rfl) (by decide)).1

/-- C10: when the combine stage finds exactly one matching video file,
it exits with code 0 having run only the FFmpeg version check: the
muxing collaborator is never invoked and no file is written, so exit
code 0 does not imply the combined output exists. -/
theorem C10_single_file_exits_zero_without_mux
    (ca : CombineArgs) (ce : CombineEnv) (fs : List (List Char))
    (h1 : ce.ffmpegInstalled = true)
    (h2 : find_video_files ca.projectName ce.mp4Files = .ok fs)
    (h3 : fs.length = 1) :
    combineMain ca ce = ([Event.ffmpegVersion], RunOutcome.exit 0) ∧
    Event.ffmpegMux ∉ (combineMain ca ce).1 ∧
    Event.fileWrite ∉ (combineMain ca ce).1 := by
  have hne : fs.isEmpty = false := by
    cases h : fs with
    | nil => subst h; simp at h3
    | cons a l => rfl
  have htrace : combineMain ca ce = ([Event.ffmpegVersion], RunOutcome.exit 0) := by
    simp [combineMain, h1, h2, hne, h3]
  refine ⟨htrace, ?_, ?_⟩ <;> rw [htrace] <;> decide

/-- Witness for C10: a directory holding a single scene video. -/
theorem C10_single_file_exits_zero_without_mux_witness :
    (({ ffmpegInstalled := true, mp4Files := ["scene_1_a.mp4".toList],
        muxOk := true, musicOk := true } : CombineEnv).ffmpegInstalled = true ∧
      find_video_files none ["scene_1_a.mp4".toList] =
        .ok ["scene_1_a.mp4".toList] ∧
      (["scene_1_a.mp4".toList] : List (List Char)).length = 1) ∧
    (combineMain
        { dryRun := false, reEncode := false, projectName := none,
          music := false }
        { ffmpegInstalled := true, mp4Files := ["scene_1_a.mp4".toList],
          muxOk := true, musicOk := true } =
        ([Event.ffmpegVersion], RunOutcome.exit 0) ∧
      Event.ffmpegMux ∉ (combineMain
        { dryRun := false, reEncode := false,
          projectName := none, music := false }
        { ffmpegInstalled := true, mp4Files := ["scene_1_a.mp4".toList],
          muxOk := true, musicOk := true }).1 ∧
      Event.fileWrite ∉ (combineMain
        { dryRun := false, reEncode := false,
          projectName := none, music := false }
        { ffmpegInstalled := true, mp4Files := ["scene_1_a.mp4".toList],
          muxOk := true, musicOk := true }).1) :=
  ⟨⟨rfl, by rfl, rfl⟩,
    C10_single_file_exits_zero_without_mux _ _ ["scene_1_a.mp4".toList] rfl (by rfl) rfl⟩

end CreativeCloner
